import Mathlib

/-!
Verification development for the ida-headless-mcp gateway.

Shallow embedding of the parts of the repository that the checked claims
are about:

- the error model and error factories (internal/server/errors.go),
- the shared tool-handler body and the concrete handlers built on it
  (internal/server/write.go, internal/server/errors.go, internal/server/search.go),
- the pagination tail that the four enumeration handlers share
  (internal/server/errors.go, getFunctions .. getStrings),
- the worker supervisor: Start, Stop, monitorWorker and
  CleanupOrphanProcesses (internal/worker/manager.go).

Effectful Go code is modelled as pure functions from an environment that
fixes the outcome of each external call (registry lookup, client lookup,
worker RPC, process spawn, socket readiness, kill and wait results) to a
pair of an ordered effect trace and the returned value.  The effect trace
records, in program order, the externally visible actions the function
performs before it returns.
-/

/-- ErrorKind categorises errors by what the caller can do.
Source: internal/server/errors.go, the ErrorKind constants. -/
inductive ErrorKind where
  | ErrSessionNotFound
  | ErrWorkerUnavailable
  | ErrIDAOperation
  | ErrInvalidInput
  | ErrDecompilerUnavailable
  | ErrInternal
deriving DecidableEq

/-- Wire string of an error kind, as in the Go constant values. -/
def ErrorKind.wire : ErrorKind → String
  | .ErrSessionNotFound => "session_not_found"
  | .ErrWorkerUnavailable => "worker_unavailable"
  | .ErrIDAOperation => "ida_operation_failed"
  | .ErrInvalidInput => "invalid_input"
  | .ErrDecompilerUnavailable => "decompiler_unavailable"
  | .ErrInternal => "internal"

/-- ErrorStatus declares retry-ability.  Source: internal/server/errors.go. -/
inductive ErrorStatus where
  | StatusPermanent
  | StatusTemporary
deriving DecidableEq

/-- Wire string of an error status. -/
def ErrorStatus.wire : ErrorStatus → String
  | .StatusPermanent => "permanent"
  | .StatusTemporary => "temporary"

/-- ToolError is the single flat error type for MCP tool responses.
Source: internal/server/errors.go.  The context map only ever holds
string values in this repository, so it is modelled as an association
list of strings. -/
structure ToolError where
  kind : ErrorKind
  status : ErrorStatus
  message : String
  operation : String
  context : List (String × String)
deriving DecidableEq

/-- Factory from internal/server/errors.go (sessionNotFound). -/
def sessionNotFound (operation sessionID : String) : ToolError :=
  { kind := .ErrSessionNotFound
    status := .StatusPermanent
    message := "session " ++ sessionID ++ " not found"
    operation := operation
    context := [("session_id", sessionID)] }

/-- Factory from internal/server/errors.go (workerUnavailable).  The Go
function takes an error value; its Error string is the detail argument. -/
def workerUnavailable (operation sessionID detail : String) : ToolError :=
  { kind := .ErrWorkerUnavailable
    status := .StatusTemporary
    message := "worker process not available"
    operation := operation
    context := [("session_id", sessionID), ("detail", detail)] }

/-- Factory from internal/server/errors.go (idaOperationFailed).  The Go
function takes an error value; its Error string becomes the message. -/
def idaOperationFailed (operation sessionID message : String) : ToolError :=
  { kind := .ErrIDAOperation
    status := .StatusPermanent
    message := message
    operation := operation
    context := [("session_id", sessionID)] }

/-- Factory from internal/server/errors.go (invalidInput). -/
def invalidInput (operation message : String) : ToolError :=
  { kind := .ErrInvalidInput
    status := .StatusPermanent
    message := message
    operation := operation
    context := [] }

/-- Factory from internal/server/errors.go (internalError). -/
def internalError (operation message : String) : ToolError :=
  { kind := .ErrInternal
    status := .StatusPermanent
    message := message
    operation := operation
    context := [] }

/-- JSON values, as far as the embedded code produces them.  Go
serialisation (encoding/json) is external; the embedding keeps the
marshalled body as its JSON value rather than a rendered string. -/
inductive Json where
  | str (s : String)
  | bool (b : Bool)
  | obj (fields : List (String × Json))

/-- JSON form of a ToolError, following the struct tags in
internal/server/errors.go: fields kind, status, message, operation in
declaration order, and context with omitempty, so an empty context map
is omitted. -/
def ToolError.toJson (e : ToolError) : Json :=
  Json.obj
    ([("kind", Json.str e.kind.wire),
      ("status", Json.str e.status.wire),
      ("message", Json.str e.message),
      ("operation", Json.str e.operation)] ++
      (if e.context = [] then []
       else [("context", Json.obj (e.context.map (fun kv => (kv.1, Json.str kv.2))))]))

/-- One content element of an MCP call-tool result.  The handlers emit
TextContent whose text is either raw text or the JSON serialisation of a
value; jsonText j stands for the text holding the serialisation of j. -/
inductive ContentItem where
  | text (s : String)
  | jsonText (j : Json)

/-- The mcp.CallToolResult fields the claims are about. -/
structure CallToolResult where
  isError : Bool
  content : List ContentItem

/-- The Go triple (result, structured, error) a tool handler returns;
the middle value is always nil in this repository and is omitted.
goError is the Go-level error returned alongside the result. -/
structure ToolResponse where
  result : CallToolResult
  goError : Option String

/-- handleToolError from internal/server/search.go: logs the structured
ToolError and returns an MCP CallToolResult with IsError set and the
serialised JSON body, together with a nil Go error. -/
def handleToolError (terr : ToolError) : ToolResponse :=
  { result := { isError := true, content := [ContentItem.jsonText terr.toJson] }
    goError := none }

/-- Success response whose single text content is the serialisation of a
JSON payload, as produced by marshalJSON in the handlers. -/
def okJson (j : Json) : ToolResponse :=
  { result := { isError := false, content := [ContentItem.jsonText j] }
    goError := none }

/-- Success response whose single text content is raw text, as in the
getDisasm success path. -/
def okText (s : String) : ToolResponse :=
  { result := { isError := false, content := [ContentItem.text s] }
    goError := none }

/-- The session fields the embedded code reads and writes.
Source: internal/session (ID, SocketPath, WorkerPID). -/
structure Session where
  id : String
  socketPath : String
  workerPID : Nat
deriving DecidableEq

/-- Externally visible actions of a tool handler, in program order:
touching the session, issuing the worker RPC, and deleting the per-session
cache (deleteSessionCache, which removes the whole session cache and with
it all four enumeration kinds). -/
inductive Effect where
  | touch (sessionID : String)
  | rpcCall (method : String)
  | invalidateCache (sessionID : String)
deriving DecidableEq

/-- Outcome of the worker RPC as the handler observes it: either a
transport-layer error, or a structurally successful reply carrying the
in-band error field (empty when absent) and the payload. -/
inductive RpcOutcome (α : Type) where
  | transportError (msg : String)
  | reply (errField : String) (payload : α)

/-- Environment fixing the outcomes of the external calls a handler
makes: the registry lookup, the supervisor client lookup, and the worker
RPC. -/
structure Env (α : Type) where
  lookup : Option Session
  getClient : Except String Unit
  rpcResult : RpcOutcome α

/-- strings.TrimSpace from the Go standard library, modelled on the
character list: drop leading and trailing whitespace. -/
def trimSpace (s : String) : String :=
  String.mk (((s.data.dropWhile Char.isWhitespace).reverse.dropWhile Char.isWhitespace).reverse)

/-- The shared handler body, repeated verbatim in every tool handler of
internal/server/write.go, errors.go and search.go after its
handler-specific input validation: look up the session
(sessionNotFound on failure), touch it, acquire the worker client
(workerUnavailable on failure), issue the RPC (idaOperationFailed on a
transport error), check the in-band error field (idaOperationFailed when
non-empty), then run the handler-specific success tail, which may add
further effects (makeFunction adds the cache invalidation). -/
def handlerCore {α : Type} (op method sessionID : String)
    (onSuccess : Session → α → List Effect × ToolResponse) (env : Env α) :
    List Effect × ToolResponse :=
  match env.lookup with
  | none => ([], handleToolError (sessionNotFound op sessionID))
  | some sess =>
    match env.getClient with
    | .error e => ([Effect.touch sess.id], handleToolError (workerUnavailable op sess.id e))
    | .ok _ =>
      match env.rpcResult with
      | .transportError msg =>
          ([Effect.touch sess.id, Effect.rpcCall method],
           handleToolError (idaOperationFailed op sess.id msg))
      | .reply errField payload =>
          if errField = "" then
            let tail := onSuccess sess payload
            (Effect.touch sess.id :: Effect.rpcCall method :: tail.1, tail.2)
          else
            ([Effect.touch sess.id, Effect.rpcCall method],
             handleToolError (idaOperationFailed op sess.id errField))

/-- Arguments of get_disasm. -/
structure GetDisasmArgs where
  sessionID : String
  address : Nat

/-- Arguments of set_name. -/
structure SetNameArgs where
  sessionID : String
  address : Nat
  name : String

/-- Arguments of delete_name. -/
structure DeleteNameArgs where
  sessionID : String
  address : Nat

/-- Arguments of rename_lvar. -/
structure RenameLvarArgs where
  sessionID : String
  functionAddress : Nat
  lvarName : String
  newName : String

/-- Arguments of rename_global. -/
structure RenameGlobalArgs where
  sessionID : String
  address : Nat
  newName : String

/-- Arguments of set_function_type. -/
structure SetFunctionTypeArgs where
  sessionID : String
  address : Nat
  prototype : String

/-- Arguments of set_global_type. -/
structure SetGlobalTypeArgs where
  sessionID : String
  address : Nat
  type : String

/-- Arguments of set_lvar_type. -/
structure SetLvarTypeArgs where
  sessionID : String
  functionAddress : Nat
  lvarName : String
  lvarType : String

/-- Arguments of make_function. -/
structure MakeFunctionArgs where
  sessionID : String
  address : Nat

/-- getDisasm from internal/server (errors.go in src): no input
validation, then the shared body; on success the raw disassembly text is
returned. -/
def getDisasm (args : GetDisasmArgs) (env : Env String) : List Effect × ToolResponse :=
  handlerCore "get_disasm" "GetDisasm" args.sessionID
    (fun _ disasm => ([], okText disasm)) env

/-- setName from internal/server/write.go: no input validation, then the
shared body; on success a JSON body with the success flag. -/
def setName (args : SetNameArgs) (env : Env Bool) : List Effect × ToolResponse :=
  handlerCore "set_name" "SetName" args.sessionID
    (fun _ success => ([], okJson (Json.obj [("success", Json.bool success)]))) env

/-- deleteName from internal/server/write.go: no input validation, then
the shared body. -/
def deleteName (args : DeleteNameArgs) (env : Env Bool) : List Effect × ToolResponse :=
  handlerCore "delete_name" "DeleteName" args.sessionID
    (fun _ success => ([], okJson (Json.obj [("success", Json.bool success)]))) env

/-- renameLvar from internal/server/write.go: rejects a blank new_name,
then a zero function_address, both before the session lookup; then the
shared body. -/
def renameLvar (args : RenameLvarArgs) (env : Env Bool) : List Effect × ToolResponse :=
  if trimSpace args.newName = "" then
    ([], handleToolError (invalidInput "rename_lvar" "new_name is required"))
  else if args.functionAddress = 0 then
    ([], handleToolError (invalidInput "rename_lvar" "function_address is required"))
  else
    handlerCore "rename_lvar" "RenameLvar" args.sessionID
      (fun _ success => ([], okJson (Json.obj [("success", Json.bool success)]))) env

/-- renameGlobal from internal/server/write.go: rejects a blank new_name
before the session lookup; the address is not validated. -/
def renameGlobal (args : RenameGlobalArgs) (env : Env Bool) : List Effect × ToolResponse :=
  if trimSpace args.newName = "" then
    ([], handleToolError (invalidInput "rename_global" "new_name is required"))
  else
    handlerCore "rename_global" "RenameGlobal" args.sessionID
      (fun _ success => ([], okJson (Json.obj [("success", Json.bool success)]))) env

/-- setFunctionType from internal/server/write.go: rejects a blank
prototype before the session lookup. -/
def setFunctionType (args : SetFunctionTypeArgs) (env : Env Bool) : List Effect × ToolResponse :=
  if trimSpace args.prototype = "" then
    ([], handleToolError (invalidInput "set_function_type" "prototype is required"))
  else
    handlerCore "set_function_type" "SetFunctionType" args.sessionID
      (fun _ success => ([], okJson (Json.obj [("success", Json.bool success)]))) env

/-- setGlobalType from internal/server/write.go: rejects a blank type
before the session lookup. -/
def setGlobalType (args : SetGlobalTypeArgs) (env : Env Bool) : List Effect × ToolResponse :=
  if trimSpace args.type = "" then
    ([], handleToolError (invalidInput "set_global_type" "type is required"))
  else
    handlerCore "set_global_type" "SetGlobalType" args.sessionID
      (fun _ success => ([], okJson (Json.obj [("success", Json.bool success)]))) env

/-- setLvarType from internal/server/write.go: rejects a blank lvar_type,
then a zero function_address, both before the session lookup. -/
def setLvarType (args : SetLvarTypeArgs) (env : Env Bool) : List Effect × ToolResponse :=
  if trimSpace args.lvarType = "" then
    ([], handleToolError (invalidInput "set_lvar_type" "lvar_type is required"))
  else if args.functionAddress = 0 then
    ([], handleToolError (invalidInput "set_lvar_type" "function_address is required"))
  else
    handlerCore "set_lvar_type" "SetLvarType" args.sessionID
      (fun _ success => ([], okJson (Json.obj [("success", Json.bool success)]))) env

/-- makeFunction from internal/server/write.go: no input validation, then
the shared body; on a reply with GetSuccess true it calls
deleteSessionCache for the session (the invalidateCache effect) before
marshalling the success body. -/
def makeFunction (args : MakeFunctionArgs) (env : Env Bool) : List Effect × ToolResponse :=
  handlerCore "make_function" "MakeFunction" args.sessionID
    (fun sess success =>
      ((if success then [Effect.invalidateCache sess.id] else []),
       okJson (Json.obj [("success", Json.bool success)]))) env

/-- The property that a handler maps both worker failure modes to
idaOperationFailed: a transport-layer RPC failure and a non-empty in-band
error field inside a structurally successful reply produce the same
structured error, carrying the operation name and the worker error
string. -/
def mapsWorkerFailures {α : Type} (op : String)
    (run : Env α → List Effect × ToolResponse) : Prop :=
  ∀ (env : Env α) (sess : Session), env.lookup = some sess → env.getClient = .ok () →
    (∀ msg, env.rpcResult = .transportError msg →
        (run env).2 = handleToolError (idaOperationFailed op sess.id msg)) ∧
    (∀ msg payload, env.rpcResult = .reply msg payload → msg ≠ "" →
        (run env).2 = handleToolError (idaOperationFailed op sess.id msg))

/-- Modelled from the spec: normalizePagination is code of this
repository that is not under src (only its callers in the enumeration
handlers are).  Spec words: defaults offset 0 and limit 200, cap 2000;
limit 0 is rejected as invalid input; limit greater than the cap is
clamped to the cap.  An absent request field is represented by none. -/
def normalizePagination (reqOffset reqLimit : Option Nat) : Except String (Nat × Nat) :=
  let offset := reqOffset.getD 0
  match reqLimit with
  | none => .ok (offset, 200)
  | some l => if l = 0 then .error "limit must be positive" else .ok (offset, min l 2000)

/-- The page an enumeration handler reports: the selected items and the
total, offset, count and limit fields of its JSON body. -/
structure Page (α : Type) where
  items : List α
  total : Nat
  offset : Nat
  count : Nat
  limit : Nat
deriving DecidableEq

/-- The pagination tail shared verbatim by getFunctions, getImports,
getExports and getStrings in internal/server (errors.go in src), applied
to the already filtered list: normalise pagination (invalidInput on
failure), clamp offset to the total, clamp the end to the total, slice,
and report total, offset, count and limit.  The op parameter is the tool
name used in the error. -/
def enumeratePage {α : Type} (op : String) (filtered : List α)
    (reqOffset reqLimit : Option Nat) : Except ToolError (Page α) :=
  match normalizePagination reqOffset reqLimit with
  | .error msg => .error (invalidInput op msg)
  | .ok (offset0, limit) =>
      let total := filtered.length
      let offset := if offset0 > total then total else offset0
      let stop := if offset + limit > total then total else offset + limit
      let items := (filtered.drop offset).take (stop - offset)
      .ok { items := items, total := total, offset := offset,
            count := items.length, limit := limit }

/-- The worker handle fields the embedded supervisor code uses.
Source: internal/worker/manager.go, WorkerClient. -/
structure WorkerHandle where
  pid : Nat
  sessionID : String
  binaryPath : String
deriving DecidableEq

/-- The supervisor session map, protected in Go by the manager mutex. -/
abbrev ManagerState := List (String × WorkerHandle)

/-- Go map assignment: bind the id, dropping any previous binding. -/
def insertWorker (m : ManagerState) (id : String) (w : WorkerHandle) : ManagerState :=
  (id, w) :: m.filter (fun p => p.1 != id)

/-- Go map delete. -/
def eraseWorker (m : ManagerState) (id : String) : ManagerState :=
  m.filter (fun p => p.1 != id)

/-- Externally visible actions of the supervisor, in program order. -/
inductive MEffect where
  | removeSocket (path : String)
  | spawn (pid : Nat)
  | cancelCtx
  | kill (pid : Nat)
  | waitReap (pid : Nat)
  | gracefulClose (sessionID : String) (timeoutSecs : Nat)
  | spawnMonitor (sessionID : String)
deriving DecidableEq

/-- Environment for Manager.Start, fixing the outcomes of its external
calls: whether os.RemoveAll on the old socket succeeds, whether
cmd.Start succeeds (and the new PID), whether the worker creates its
socket file within the 10 second readiness deadline, and whether a dial
of that socket is accepted within the deadline. -/
structure StartEnv where
  removeOk : Bool
  spawnResult : Except String Nat
  socketCreated : Bool
  socketAccepts : Bool

/-- Result of Manager.Start: the effect trace, the new session map, the
session record as Start leaves it, whether the socket file exists when
Start returns, and the returned error value. -/
structure StartOutcome where
  effects : List MEffect
  state : ManagerState
  sess : Session
  socketExists : Bool
  result : Except String Unit

/-- Manager.Start from internal/worker/manager.go: remove the old socket
file, spawn the worker subprocess on a context detached from the request
(cancel on spawn failure), record the PID in the session, poll
waitForSocket (stat plus dial, 10 s deadline, 100 ms interval); on
readiness failure cancel the context, kill the process and wait to reap
it, then return failure; on readiness success build the clients, publish
the handle in the session map and launch the monitor goroutine.  Note
that the readiness-failure path does not remove the socket file, does
not reset the session PID, and that no already-running check guards the
spawn. -/
def Manager.Start (m : ManagerState) (sess : Session) (binaryPath : String)
    (env : StartEnv) : StartOutcome :=
  if env.removeOk = false then
    { effects := [], state := m, sess := sess, socketExists := true,
      result := .error "failed to remove old socket" }
  else
    match env.spawnResult with
    | .error e =>
        { effects := [MEffect.removeSocket sess.socketPath, MEffect.cancelCtx],
          state := m, sess := sess, socketExists := false,
          result := .error ("failed to start worker: " ++ e) }
    | .ok pid =>
        let sess1 := { sess with workerPID := pid }
        if env.socketCreated && env.socketAccepts then
          let w : WorkerHandle := { pid := pid, sessionID := sess.id, binaryPath := binaryPath }
          { effects := [MEffect.removeSocket sess.socketPath, MEffect.spawn pid,
                        MEffect.spawnMonitor sess.id],
            state := insertWorker m sess.id w, sess := sess1,
            socketExists := true, result := .ok () }
        else
          { effects := [MEffect.removeSocket sess.socketPath, MEffect.spawn pid,
                        MEffect.cancelCtx, MEffect.kill pid, MEffect.waitReap pid],
            state := m, sess := sess1,
            socketExists := env.socketCreated,
            result := .error ("worker socket not ready: timeout waiting for socket "
                                ++ sess.socketPath) }

/-- Manager.monitorWorker from internal/worker/manager.go: block on the
subprocess exit (the wait reap), log, and delete the handle from the
session map.  It does not touch the session record. -/
def Manager.monitorWorker (m : ManagerState) (sessionID : String) (w : WorkerHandle) :
    List MEffect × ManagerState :=
  ([MEffect.waitReap w.pid], eraseWorker m sessionID)

/-- Outcome of signalling or waiting on the worker process in Stop. -/
inductive KillOutcome where
  | ok
  | processDone
  | failed (msg : String)
deriving DecidableEq

/-- Environment for Manager.Stop: the outcome of Process.Kill and of
cmd.Wait.  processDone stands for os.ErrProcessDone, the tolerated
already-exited outcome. -/
structure StopEnv where
  killOutcome : KillOutcome
  waitOutcome : KillOutcome

/-- Result of Manager.Stop. -/
structure StopOutcome where
  effects : List MEffect
  state : ManagerState
  result : Except String Unit

/-- Manager.Stop from internal/worker/manager.go: look up the handle (an
error when absent), send the graceful CloseSession over the
session-control client under a 5 second deadline, cancel the subprocess
context, kill the process (tolerating os.ErrProcessDone), wait to reap
it (the wait result is only logged), delete the handle from the map, and
return an error only when the kill failed for a reason other than the
process already being done. -/
def Manager.Stop (m : ManagerState) (sessionID : String) (env : StopEnv) : StopOutcome :=
  match List.lookup sessionID m with
  | none =>
      { effects := [], state := m,
        result := .error ("no worker for session " ++ sessionID) }
  | some w =>
      let effs := [MEffect.gracefulClose sessionID 5, MEffect.cancelCtx,
                   MEffect.kill w.pid, MEffect.waitReap w.pid]
      let m2 := eraseWorker m sessionID
      match env.killOutcome with
      | .failed msg =>
          { effects := effs, state := m2,
            result := .error ("failed to kill worker: " ++ msg) }
      | _ => { effects := effs, state := m2, result := .ok () }

/-- Whether sub occurs as a substring of s, as strings.Contains does. -/
def containsSub (s sub : String) : Bool := decide (sub.data <:+: s.data)

/-- The worker invocation pattern test from
Manager.CleanupOrphanProcesses: the command line contains the ida-worker
marker or the configured worker script path, and contains the socket
flag. -/
def matchesWorkerPattern (pythonScript cmd : String) : Bool :=
  (containsSub cmd "ida-worker" || containsSub cmd pythonScript) && containsSub cmd "--socket"

/-- One entry of the proc table as CleanupOrphanProcesses reads it: the
directory name, whether it is a directory, and the command line when the
cmdline file is readable. -/
structure ProcEntry where
  name : String
  isDir : Bool
  cmdline : Option String
deriving DecidableEq

/-- strconv.Atoi as CleanupOrphanProcesses uses it on proc entry names,
modelled on the character list: a non-empty all-digit name parses to its
decimal value, anything else is rejected. -/
def parsePid (s : String) : Option Nat :=
  if s.data ≠ [] ∧ s.data.all Char.isDigit then
    some (s.data.foldl (fun n c => n * 10 + (c.toNat - 48)) 0)
  else none

/-- The per-entry decision of Manager.CleanupOrphanProcesses, in source
order: skip non-directories, skip names that are not numeric PIDs, skip
the own process, skip entries whose cmdline is unreadable, and signal
exactly the entries matching the worker pattern.  On Unix
os.FindProcess always succeeds, so it introduces no further case. -/
def orphanSignalTarget (pythonScript : String) (myPID : Nat) (e : ProcEntry) : Option Nat :=
  if e.isDir = false then none
  else
    match parsePid e.name with
    | none => none
    | some pid =>
      if pid = myPID then none
      else
        match e.cmdline with
        | none => none
        | some cmd => if matchesWorkerPattern pythonScript cmd then some pid else none

/-- Manager.CleanupOrphanProcesses from internal/worker/manager.go:
enumerate the proc table (a no-op returning nothing where it cannot be
read, as on platforms without proc), and send SIGTERM to every entry the
per-entry decision selects.  The returned list is the ordered list of
PIDs that are sent SIGTERM. -/
def Manager.CleanupOrphanProcesses (pythonScript : String) (myPID : Nat)
    (procDir : Option (List ProcEntry)) : List Nat :=
  match procDir with
  | none => []
  | some entries => entries.filterMap (orphanSignalTarget pythonScript myPID)

/-- Concrete session used by the closed scenario runs. -/
def sessA : Session := { id := "s1", socketPath := "/tmp/ida-worker-s1.sock", workerPID := 0 }

/-- Fully successful Start environment spawning PID 4242. -/
def startEnvA : StartEnv :=
  { removeOk := true, spawnResult := .ok 4242, socketCreated := true, socketAccepts := true }

/-- Fully successful Start environment spawning PID 4243. -/
def startEnvB : StartEnv :=
  { removeOk := true, spawnResult := .ok 4243, socketCreated := true, socketAccepts := true }

/-- Start environment whose worker creates its socket file but never
accepts a connection, so readiness times out. -/
def startEnvFail : StartEnv :=
  { removeOk := true, spawnResult := .ok 4242, socketCreated := true, socketAccepts := false }

/-- First start of sessA from an empty supervisor map. -/
def startRun1 : StartOutcome := Manager.Start [] sessA "/bin/ls" startEnvA

/-- Second start of the same session while the first worker is running. -/
def startRun2 : StartOutcome := Manager.Start startRun1.state startRun1.sess "/bin/ls" startEnvB

/-- Start of sessA whose readiness probe times out. -/
def startRunFail : StartOutcome := Manager.Start [] sessA "/bin/ls" startEnvFail

/-- Helper: the shared handler body maps both worker failure modes to
idaOperationFailed, for any operation, method and success tail. -/
theorem handlerCore_maps {α : Type} (op method sid : String)
    (onSuccess : Session → α → List Effect × ToolResponse) :
    mapsWorkerFailures op (handlerCore op method sid onSuccess) := by
  rintro ⟨lk, gc, rr⟩ sess hlk hgc
  dsimp only at hlk hgc
  subst hlk
  subst hgc
  constructor
  · rintro msg hrr
    dsimp only at hrr
    subst hrr
    rfl
  · rintro msg payload hrr hne
    dsimp only at hrr
    subst hrr
    simp [handlerCore, hne]

/-- Helper: the shared handler body never emits a cache invalidation
unless its success tail does. -/
theorem handlerCore_no_invalidate {α : Type} (op method sid : String)
    (onSuccess : Session → α → List Effect × ToolResponse)
    (h : ∀ sess payload s2, Effect.invalidateCache s2 ∉ (onSuccess sess payload).1)
    (env : Env α) (s2 : String) :
    Effect.invalidateCache s2 ∉ (handlerCore op method sid onSuccess env).1 := by
  obtain ⟨lk, gc, rr⟩ := env
  cases lk with
  | none => simp [handlerCore]
  | some sess =>
    cases gc with
    | error e => simp [handlerCore]
    | ok u =>
      cases rr with
      | transportError msg => simp [handlerCore]
      | reply errField payload =>
        by_cases he : errField = ""
        · simpa [handlerCore, he] using h sess payload s2
        · simp [handlerCore, he]

/-- Helper: the shared handler body returns a nil Go error whenever its
success tail does; the error paths go through handleToolError, whose Go
error is nil by construction. -/
theorem handlerCore_goError_none {α : Type} (op method sid : String)
    (onSuccess : Session → α → List Effect × ToolResponse)
    (h : ∀ sess payload, ((onSuccess sess payload).2).goError = none)
    (env : Env α) :
    ((handlerCore op method sid onSuccess env).2).goError = none := by
  obtain ⟨lk, gc, rr⟩ := env
  cases lk with
  | none => rfl
  | some sess =>
    cases gc with
    | error e => rfl
    | ok u =>
      cases rr with
      | transportError msg => rfl
      | reply errField payload =>
        by_cases he : errField = ""
        · simpa [handlerCore, he] using h sess payload
        · simp [handlerCore, he, handleToolError]

/-- Claim C2: for every embedded tool handler, a transport-layer failure
of the worker RPC and a non-empty in-band error field inside a
structurally successful reply both produce a tool error built by
idaOperationFailed, hence kind ida_operation_failed and status
permanent, whose operation field names the tool call and whose message
carries the worker error string; for the validating handlers this holds
for every request that passes input validation, since a rejected request
never reaches the worker.  In particular, get_disasm with in-band error
addr out of range yields kind ida_operation_failed, status permanent,
operation get_disasm and a message containing addr out of range. -/
theorem claim_C2_theorem :
    (∀ args : GetDisasmArgs, mapsWorkerFailures "get_disasm" (getDisasm args)) ∧
    (∀ args : SetNameArgs, mapsWorkerFailures "set_name" (setName args)) ∧
    (∀ args : DeleteNameArgs, mapsWorkerFailures "delete_name" (deleteName args)) ∧
    (∀ args : RenameLvarArgs, trimSpace args.newName ≠ "" → args.functionAddress ≠ 0 →
        mapsWorkerFailures "rename_lvar" (renameLvar args)) ∧
    (∀ args : RenameGlobalArgs, trimSpace args.newName ≠ "" →
        mapsWorkerFailures "rename_global" (renameGlobal args)) ∧
    (∀ args : SetFunctionTypeArgs, trimSpace args.prototype ≠ "" →
        mapsWorkerFailures "set_function_type" (setFunctionType args)) ∧
    (∀ args : SetGlobalTypeArgs, trimSpace args.type ≠ "" →
        mapsWorkerFailures "set_global_type" (setGlobalType args)) ∧
    (∀ args : SetLvarTypeArgs, trimSpace args.lvarType ≠ "" → args.functionAddress ≠ 0 →
        mapsWorkerFailures "set_lvar_type" (setLvarType args)) ∧
    (∀ args : MakeFunctionArgs, mapsWorkerFailures "make_function" (makeFunction args)) ∧
    ((getDisasm { sessionID := "s1", address := 4198400 }
        { lookup := some sessA, getClient := .ok (),
          rpcResult := .reply "addr out of range" "" }).2
       = handleToolError (idaOperationFailed "get_disasm" "s1" "addr out of range") ∧
     (idaOperationFailed "get_disasm" "s1" "addr out of range").kind = ErrorKind.ErrIDAOperation ∧
     (idaOperationFailed "get_disasm" "s1" "addr out of range").status = ErrorStatus.StatusPermanent ∧
     (idaOperationFailed "get_disasm" "s1" "addr out of range").operation = "get_disasm" ∧
     containsSub (idaOperationFailed "get_disasm" "s1" "addr out of range").message
       "addr out of range" = true) := by
  refine ⟨fun args => handlerCore_maps _ _ _ _,
          fun args => handlerCore_maps _ _ _ _,
          fun args => handlerCore_maps _ _ _ _,
          ?_, ?_, ?_, ?_, ?_,
          fun args => handlerCore_maps _ _ _ _,
          ?_, by decide, by decide, by decide, by decide⟩
  · intro args h1 h2
    unfold renameLvar
    simp only [if_neg h1, if_neg h2]
    exact handlerCore_maps _ _ _ _
  · intro args h1
    unfold renameGlobal
    simp only [if_neg h1]
    exact handlerCore_maps _ _ _ _
  · intro args h1
    unfold setFunctionType
    simp only [if_neg h1]
    exact handlerCore_maps _ _ _ _
  · intro args h1
    unfold setGlobalType
    simp only [if_neg h1]
    exact handlerCore_maps _ _ _ _
  · intro args h1 h2
    unfold setLvarType
    simp only [if_neg h1, if_neg h2]
    exact handlerCore_maps _ _ _ _
  · exact ((handlerCore_maps "get_disasm" "GetDisasm" "s1"
        (fun _ disasm => ([], okText disasm)))
        { lookup := some sessA, getClient := .ok (),
          rpcResult := .reply "addr out of range" "" }
        sessA rfl rfl).2 "addr out of range" "" rfl (by decide)

/-- Witness for claim C2: the set_name handler maps a concrete transport
failure of the worker RPC to the idaOperationFailed error. -/
theorem claim_C2_witness :
    (setName { sessionID := "s1", address := 4096, name := "x" }
       { lookup := some sessA, getClient := .ok (),
         rpcResult := .transportError "dial unix: connection refused" }).2
      = handleToolError (idaOperationFailed "set_name" "s1" "dial unix: connection refused") := by
  exact ((claim_C2_theorem.2.1 { sessionID := "s1", address := 4096, name := "x" }
    { lookup := some sessA, getClient := .ok (),
      rpcResult := .transportError "dial unix: connection refused" }
    sessA rfl rfl).1 "dial unix: connection refused" rfl)

/-- Counterexample for claim C1: set_name, one of the mutation handlers
the claim covers, returns a successful response at a concrete input
without emitting any cache invalidation for the session, so not every
cache-changing mutation invalidates the cached enumerations before the
success response is returned. -/
theorem claim_C1_counterexample :
    ((setName { sessionID := "s1", address := 4198400, name := "renamed" }
        { lookup := some sessA, getClient := .ok (),
          rpcResult := .reply "" true }).2).result.isError = false ∧
    Effect.invalidateCache "s1" ∉
      (setName { sessionID := "s1", address := 4198400, name := "renamed" }
        { lookup := some sessA, getClient := .ok (),
          rpcResult := .reply "" true }).1 := by
  exact ⟨rfl, by decide⟩

/-- Claim C1 (amended): only make_function invalidates the session cache
on success.  When make_function receives a successful reply with success
true, it deletes the whole per-session cache (which holds all four
enumeration kinds) before the success response is returned, the
invalidation appearing in the effect trace between the RPC and the
return; the other seven mutation handlers (set_name, delete_name,
rename_lvar, rename_global, set_function_type, set_global_type,
set_lvar_type) never emit a cache invalidation. -/
theorem claim_C1_theorem :
    (∀ (args : MakeFunctionArgs) (env : Env Bool) (sess : Session),
        env.lookup = some sess → env.getClient = .ok () → env.rpcResult = .reply "" true →
        makeFunction args env =
          ([Effect.touch sess.id, Effect.rpcCall "MakeFunction",
            Effect.invalidateCache sess.id],
           okJson (Json.obj [("success", Json.bool true)]))) ∧
    (∀ (args : SetNameArgs) (env : Env Bool) (sid : String),
        Effect.invalidateCache sid ∉ (setName args env).1) ∧
    (∀ (args : DeleteNameArgs) (env : Env Bool) (sid : String),
        Effect.invalidateCache sid ∉ (deleteName args env).1) ∧
    (∀ (args : RenameLvarArgs) (env : Env Bool) (sid : String),
        Effect.invalidateCache sid ∉ (renameLvar args env).1) ∧
    (∀ (args : RenameGlobalArgs) (env : Env Bool) (sid : String),
        Effect.invalidateCache sid ∉ (renameGlobal args env).1) ∧
    (∀ (args : SetFunctionTypeArgs) (env : Env Bool) (sid : String),
        Effect.invalidateCache sid ∉ (setFunctionType args env).1) ∧
    (∀ (args : SetGlobalTypeArgs) (env : Env Bool) (sid : String),
        Effect.invalidateCache sid ∉ (setGlobalType args env).1) ∧
    (∀ (args : SetLvarTypeArgs) (env : Env Bool) (sid : String),
        Effect.invalidateCache sid ∉ (setLvarType args env).1) := by
  have hnone : ∀ (sess : Session) (payload : Bool) (s2 : String),
      Effect.invalidateCache s2 ∉
        ((fun (_ : Session) (success : Bool) =>
            (([] : List Effect), okJson (Json.obj [("success", Json.bool success)])))
          sess payload).1 := by
    intro sess payload s2
    simp
  refine ⟨?_, ?_, ?_, ?_, ?_, ?_, ?_, ?_⟩
  · rintro args ⟨lk, gc, rr⟩ sess hlk hgc hrr
    dsimp only at hlk hgc hrr
    subst hlk
    subst hgc
    subst hrr
    rfl
  · intro args env sid
    exact handlerCore_no_invalidate _ _ _ _ hnone env sid
  · intro args env sid
    exact handlerCore_no_invalidate _ _ _ _ hnone env sid
  · intro args env sid
    unfold renameLvar
    split
    · simp
    · split
      · simp
      · exact handlerCore_no_invalidate _ _ _ _ hnone env sid
  · intro args env sid
    unfold renameGlobal
    split
    · simp
    · exact handlerCore_no_invalidate _ _ _ _ hnone env sid
  · intro args env sid
    unfold setFunctionType
    split
    · simp
    · exact handlerCore_no_invalidate _ _ _ _ hnone env sid
  · intro args env sid
    unfold setGlobalType
    split
    · simp
    · exact handlerCore_no_invalidate _ _ _ _ hnone env sid
  · intro args env sid
    unfold setLvarType
    split
    · simp
    · split
      · simp
      · exact handlerCore_no_invalidate _ _ _ _ hnone env sid

/-- Witness for claim C1: a concrete successful make_function run emits
the cache invalidation for its session before returning the success
body, and a concrete set_name run emits none. -/
theorem claim_C1_witness :
    makeFunction { sessionID := "s1", address := 4198400 }
        { lookup := some sessA, getClient := .ok (), rpcResult := .reply "" true } =
      ([Effect.touch "s1", Effect.rpcCall "MakeFunction", Effect.invalidateCache "s1"],
       okJson (Json.obj [("success", Json.bool true)])) ∧
    Effect.invalidateCache "s1" ∉
      (setName { sessionID := "s1", address := 4096, name := "x" }
        { lookup := some sessA, getClient := .ok (), rpcResult := .reply "" true }).1 := by
  exact ⟨claim_C1_theorem.1 { sessionID := "s1", address := 4198400 }
           { lookup := some sessA, getClient := .ok (), rpcResult := .reply "" true }
           sessA rfl rfl rfl,
         claim_C1_theorem.2.1 { sessionID := "s1", address := 4096, name := "x" }
           { lookup := some sessA, getClient := .ok (), rpcResult := .reply "" true } "s1"⟩

/-- Counterexample for claim C7: set_name does not validate its
obligatory name input.  At a concrete request whose name is empty the
handler proceeds to the session lookup and reports session_not_found
rather than invalid_input, so not every handler validates obligatory
inputs before looking up the session. -/
theorem claim_C7_counterexample :
    (setName { sessionID := "s1", address := 4198400, name := "" }
        { lookup := none, getClient := .ok (), rpcResult := .reply "" true }).2
      = handleToolError (sessionNotFound "set_name" "s1") ∧
    (sessionNotFound "set_name" "s1").kind ≠ ErrorKind.ErrInvalidInput := by
  exact ⟨rfl, by decide⟩

/-- Claim C7 (amended): input validation precedes session lookup where
it exists, but it is not universal.  rename_lvar rejects a blank
new_name, and then a zero function_address, with invalid_input before
any session lookup or worker traffic, for every environment; set_name
and get_disasm perform no input validation at all, so an empty name or a
zero address proceeds straight to the session lookup. -/
theorem claim_C7_theorem :
    (∀ (args : RenameLvarArgs) (env : Env Bool), trimSpace args.newName = "" →
        renameLvar args env =
          ([], handleToolError (invalidInput "rename_lvar" "new_name is required"))) ∧
    (∀ (args : RenameLvarArgs) (env : Env Bool),
        trimSpace args.newName ≠ "" → args.functionAddress = 0 →
        renameLvar args env =
          ([], handleToolError (invalidInput "rename_lvar" "function_address is required"))) ∧
    (∀ (args : SetNameArgs) (env : Env Bool), env.lookup = none →
        setName args env = ([], handleToolError (sessionNotFound "set_name" args.sessionID))) ∧
    (∀ (args : GetDisasmArgs) (env : Env String), env.lookup = none →
        getDisasm args env =
          ([], handleToolError (sessionNotFound "get_disasm" args.sessionID))) := by
  refine ⟨?_, ?_, ?_, ?_⟩
  · intro args env h1
    unfold renameLvar
    rw [if_pos h1]
  · intro args env h1 h2
    unfold renameLvar
    rw [if_neg h1, if_pos h2]
  · rintro args ⟨lk, gc, rr⟩ hlk
    dsimp only at hlk
    subst hlk
    rfl
  · rintro args ⟨lk, gc, rr⟩ hlk
    dsimp only at hlk
    subst hlk
    rfl

/-- Witness for claim C7: rename_lvar rejects a concrete blank new_name
with invalid_input without consulting the registry. -/
theorem claim_C7_witness :
    renameLvar { sessionID := "s1", functionAddress := 4198400,
                 lvarName := "v1", newName := "  " }
        { lookup := some sessA, getClient := .ok (), rpcResult := .reply "" true }
      = ([], handleToolError (invalidInput "rename_lvar" "new_name is required")) := by
  exact claim_C7_theorem.1 { sessionID := "s1", functionAddress := 4198400,
                             lvarName := "v1", newName := "  " }
    { lookup := some sessA, getClient := .ok (), rpcResult := .reply "" true } (by decide)

/-- Claim C10: handleToolError delivers every tool error in-band: the
call-tool result has IsError true and its body is the JSON serialisation
of the ToolError (kind, status, message, operation, context with
omitempty), while the Go-level error returned alongside is nil; and the
embedded handlers return a nil Go error on every path, so a tool failure
never surfaces as a protocol-level error. -/
theorem claim_C10_theorem :
    (∀ terr : ToolError,
        handleToolError terr =
          { result := { isError := true,
                        content := [ContentItem.jsonText terr.toJson] }
            goError := none }) ∧
    (∀ (args : GetDisasmArgs) (env : Env String),
        ((getDisasm args env).2).goError = none) ∧
    (∀ (args : MakeFunctionArgs) (env : Env Bool),
        ((makeFunction args env).2).goError = none) := by
  refine ⟨fun terr => rfl, ?_, ?_⟩
  · intro args env
    exact handlerCore_goError_none _ _ _ _ (fun sess payload => rfl) env
  · intro args env
    refine handlerCore_goError_none _ _ _ _ ?_ env
    intro sess payload
    cases payload <;> rfl

/-- Counterexample for claim C3: starting the same session twice with
fully healthy environments succeeds both times.  The second call does
not fail with worker_unavailable; it spawns a second worker process
(PID 4243) and overwrites the handle of the still-running first worker
(PID 4242) in the supervisor map. -/
theorem claim_C3_counterexample :
    startRun1.result = .ok () ∧
    List.lookup "s1" startRun1.state =
      some { pid := 4242, sessionID := "s1", binaryPath := "/bin/ls" } ∧
    startRun2.result = .ok () ∧
    MEffect.spawn 4243 ∈ startRun2.effects ∧
    List.lookup "s1" startRun2.state =
      some { pid := 4243, sessionID := "s1", binaryPath := "/bin/ls" } := by
  exact ⟨rfl, rfl, rfl, by decide, rfl⟩

/-- Claim C3 (amended): Manager.Start performs no already-running check.
For every prior supervisor state, in particular one where the session
already has a running worker, a call with a healthy environment spawns a
new worker, publishes it in place of any existing handle for the
session, and returns success rather than a worker_unavailable error. -/
theorem claim_C3_theorem :
    ∀ (m : ManagerState) (sess : Session) (bp : String) (env : StartEnv) (pid : Nat),
      env.removeOk = true → env.spawnResult = .ok pid →
      env.socketCreated = true → env.socketAccepts = true →
      (Manager.Start m sess bp env).result = .ok () ∧
      MEffect.spawn pid ∈ (Manager.Start m sess bp env).effects ∧
      (Manager.Start m sess bp env).state =
        insertWorker m sess.id { pid := pid, sessionID := sess.id, binaryPath := bp } := by
  rintro m sess bp ⟨ro, sr, sc, sa⟩ pid hro hsr hsc hsa
  dsimp only at hro hsr hsc hsa
  subst hro
  subst hsr
  subst hsc
  subst hsa
  refine ⟨rfl, ?_, rfl⟩
  simp [Manager.Start]

/-- Witness for claim C3: the amended statement at the concrete second
start of the running session. -/
theorem claim_C3_witness :
    (Manager.Start startRun1.state startRun1.sess "/bin/ls" startEnvB).result = .ok () ∧
    MEffect.spawn 4243 ∈ (Manager.Start startRun1.state startRun1.sess "/bin/ls" startEnvB).effects ∧
    (Manager.Start startRun1.state startRun1.sess "/bin/ls" startEnvB).state =
      insertWorker startRun1.state startRun1.sess.id
        { pid := 4243, sessionID := startRun1.sess.id, binaryPath := "/bin/ls" } := by
  exact claim_C3_theorem startRun1.state startRun1.sess "/bin/ls" startEnvB 4243 rfl rfl rfl rfl

/-- Counterexample for claim C4: a concrete start whose worker creates
its socket file but never accepts a connection times out and returns
failure, yet the socket file still exists when Start returns — the
readiness-failure cleanup does not remove the socket file. -/
theorem claim_C4_counterexample :
    startRunFail.result =
      .error "worker socket not ready: timeout waiting for socket /tmp/ida-worker-s1.sock" ∧
    startRunFail.socketExists = true := by
  exact ⟨rfl, rfl⟩

/-- Claim C4 (amended): on every readiness failure Start cancels the
subprocess context, SIGKILLs the process and waits to reap it, in that
order, before returning failure — leaving no subprocess behind and the
supervisor map unchanged — but it does not remove the socket file: a
socket the worker managed to create still exists when Start returns (it
is only removed by the RemoveAll at the beginning of a later Start for
the same session). -/
theorem claim_C4_theorem :
    ∀ (m : ManagerState) (sess : Session) (bp : String) (env : StartEnv) (pid : Nat),
      env.removeOk = true → env.spawnResult = .ok pid →
      (env.socketCreated && env.socketAccepts) = false →
      (Manager.Start m sess bp env).effects =
        [MEffect.removeSocket sess.socketPath, MEffect.spawn pid,
         MEffect.cancelCtx, MEffect.kill pid, MEffect.waitReap pid] ∧
      (Manager.Start m sess bp env).result =
        .error ("worker socket not ready: timeout waiting for socket " ++ sess.socketPath) ∧
      (Manager.Start m sess bp env).state = m ∧
      (Manager.Start m sess bp env).socketExists = env.socketCreated := by
  rintro m sess bp ⟨ro, sr, sc, sa⟩ pid hro hsr hna
  dsimp only at hro hsr hna
  subst hro
  subst hsr
  exact ⟨by simp [Manager.Start, hna], by simp [Manager.Start, hna],
         by simp [Manager.Start, hna], by simp [Manager.Start, hna]⟩

/-- Witness for claim C4: the amended statement at the concrete
timed-out start. -/
theorem claim_C4_witness :
    (Manager.Start [] sessA "/bin/ls" startEnvFail).effects =
      [MEffect.removeSocket "/tmp/ida-worker-s1.sock", MEffect.spawn 4242,
       MEffect.cancelCtx, MEffect.kill 4242, MEffect.waitReap 4242] ∧
    (Manager.Start [] sessA "/bin/ls" startEnvFail).result =
      .error ("worker socket not ready: timeout waiting for socket " ++ sessA.socketPath) ∧
    (Manager.Start [] sessA "/bin/ls" startEnvFail).state = [] ∧
    (Manager.Start [] sessA "/bin/ls" startEnvFail).socketExists = startEnvFail.socketCreated := by
  exact claim_C4_theorem [] sessA "/bin/ls" startEnvFail 4242 rfl rfl rfl

/-- Counterexample for claim C8: after the concrete failed start the
session record still carries worker PID 4242 although the process was
killed and reaped and no worker is bound to the session in the
supervisor map, so worker_pid is not zero when no worker is bound. -/
theorem claim_C8_counterexample :
    startRunFail.sess.workerPID = 4242 ∧
    List.lookup "s1" startRunFail.state = none := by
  exact ⟨rfl, rfl⟩

/-- Claim C8 (amended): worker_pid is set at spawn and never reset.
After every readiness-failure start the session retains the PID of the
already killed and reaped worker while the supervisor map binds no
worker to it, and the monitor goroutine on worker exit only deletes the
handle from the map — it does not touch the session record, so a stale
non-zero PID persists there as well. -/
theorem claim_C8_theorem :
    (∀ (m : ManagerState) (sess : Session) (bp : String) (env : StartEnv) (pid : Nat),
        env.removeOk = true → env.spawnResult = .ok pid →
        (env.socketCreated && env.socketAccepts) = false →
        (Manager.Start m sess bp env).sess.workerPID = pid ∧
        (Manager.Start m sess bp env).state = m) ∧
    (∀ (m : ManagerState) (sid : String) (w : WorkerHandle),
        Manager.monitorWorker m sid w = ([MEffect.waitReap w.pid], eraseWorker m sid)) := by
  constructor
  · rintro m sess bp ⟨ro, sr, sc, sa⟩ pid hro hsr hna
    dsimp only at hro hsr hna
    subst hro
    subst hsr
    exact ⟨by simp [Manager.Start, hna], by simp [Manager.Start, hna]⟩
  · intro m sid w
    rfl

/-- Witness for claim C8: the amended statement at the concrete
timed-out start, and the monitor removing a concrete handle. -/
theorem claim_C8_witness :
    ((Manager.Start [] sessA "/bin/ls" startEnvFail).sess.workerPID = 4242 ∧
     (Manager.Start [] sessA "/bin/ls" startEnvFail).state = []) ∧
    Manager.monitorWorker [("s1", { pid := 4242, sessionID := "s1", binaryPath := "/bin/ls" })]
        "s1" { pid := 4242, sessionID := "s1", binaryPath := "/bin/ls" } =
      ([MEffect.waitReap 4242],
       eraseWorker [("s1", { pid := 4242, sessionID := "s1", binaryPath := "/bin/ls" })] "s1") := by
  exact ⟨claim_C8_theorem.1 [] sessA "/bin/ls" startEnvFail 4242 rfl rfl rfl,
         claim_C8_theorem.2 _ "s1" _⟩

/-- Claim C5: for every session with a worker, Stop sends the graceful
CloseSession over the session-control RPC under a 5 second deadline,
then cancels the subprocess context, then kills the process, then waits
to reap it — in exactly that order, the reap preceding the return — and
removes the handle from the map; when the process already exited (kill
or wait report process-done) Stop still returns success. -/
theorem claim_C5_theorem :
    ∀ (m : ManagerState) (sid : String) (env : StopEnv) (w : WorkerHandle),
      List.lookup sid m = some w →
      (Manager.Stop m sid env).effects =
        [MEffect.gracefulClose sid 5, MEffect.cancelCtx,
         MEffect.kill w.pid, MEffect.waitReap w.pid] ∧
      (Manager.Stop m sid env).state = eraseWorker m sid ∧
      (env.killOutcome = KillOutcome.processDone → (Manager.Stop m sid env).result = .ok ()) ∧
      (env.killOutcome = KillOutcome.ok → (Manager.Stop m sid env).result = .ok ()) := by
  rintro m sid ⟨ko, wo⟩ w hw
  cases ko <;> simp [Manager.Stop, hw]

/-- Witness for claim C5: stopping a concrete session whose worker
already exited (kill and wait report process-done) performs the four
steps in order and returns success. -/
theorem claim_C5_witness :
    (Manager.Stop [("s1", { pid := 4242, sessionID := "s1", binaryPath := "/bin/ls" })] "s1"
        { killOutcome := .processDone, waitOutcome := .processDone }).effects =
      [MEffect.gracefulClose "s1" 5, MEffect.cancelCtx,
       MEffect.kill 4242, MEffect.waitReap 4242] ∧
    (Manager.Stop [("s1", { pid := 4242, sessionID := "s1", binaryPath := "/bin/ls" })] "s1"
        { killOutcome := .processDone, waitOutcome := .processDone }).result = .ok () := by
  have h := claim_C5_theorem
    [("s1", { pid := 4242, sessionID := "s1", binaryPath := "/bin/ls" })] "s1"
    { killOutcome := .processDone, waitOutcome := .processDone }
    { pid := 4242, sessionID := "s1", binaryPath := "/bin/ls" } rfl
  exact ⟨h.1, h.2.2.1 rfl⟩

/-- Helper: characterisation of the per-entry decision of
CleanupOrphanProcesses. -/
theorem orphanSignalTarget_eq_some (ps : String) (myPID : Nat) (e : ProcEntry) (pid : Nat) :
    orphanSignalTarget ps myPID e = some pid ↔
      e.isDir = true ∧ parsePid e.name = some pid ∧ pid ≠ myPID ∧
        ∃ cmd, e.cmdline = some cmd ∧ matchesWorkerPattern ps cmd = true := by
  constructor
  · intro h
    unfold orphanSignalTarget at h
    split at h
    · exact absurd h (by simp)
    next hdir =>
      split at h
      next hp => exact absurd h (by simp)
      next q hp =>
        split at h
        · exact absurd h (by simp)
        next hq =>
          split at h
          next hcmd => exact absurd h (by simp)
          next cmd hcmd =>
            split at h
            next hm =>
              obtain rfl := Option.some.inj h
              refine ⟨?_, hp, hq, cmd, hcmd, hm⟩
              cases hb : e.isDir
              · exact absurd hb hdir
              · rfl
            next hm => exact absurd h (by simp)
  · rintro ⟨hdir, hp, hq, cmd, hcmd, hm⟩
    obtain ⟨name, isDir, cmdline⟩ := e
    dsimp only at hdir hp hcmd
    subst hdir
    subst hcmd
    simp [orphanSignalTarget, hp, hq, hm]

/-- Claim C9: the orphan-process cleanup sends SIGTERM to exactly the
enumerated processes whose command line matches the worker invocation
pattern (the ida-worker marker or the configured worker script, plus the
socket flag) and which are not the gateway process itself; the gateway
own PID is never signalled, and where the proc table cannot be read the
operation is a no-op signalling nothing. -/
theorem claim_C9_theorem :
    (∀ (ps : String) (myPID : Nat),
        Manager.CleanupOrphanProcesses ps myPID none = []) ∧
    (∀ (ps : String) (myPID : Nat) (entries : List ProcEntry) (pid : Nat),
        pid ∈ Manager.CleanupOrphanProcesses ps myPID (some entries) ↔
          ∃ e ∈ entries, e.isDir = true ∧ parsePid e.name = some pid ∧ pid ≠ myPID ∧
            ∃ cmd, e.cmdline = some cmd ∧ matchesWorkerPattern ps cmd = true) ∧
    (∀ (ps : String) (myPID : Nat) (procDir : Option (List ProcEntry)),
        myPID ∉ Manager.CleanupOrphanProcesses ps myPID procDir) := by
  have hmem : ∀ (ps : String) (myPID : Nat) (entries : List ProcEntry) (pid : Nat),
      pid ∈ Manager.CleanupOrphanProcesses ps myPID (some entries) ↔
        ∃ e ∈ entries, e.isDir = true ∧ parsePid e.name = some pid ∧ pid ≠ myPID ∧
          ∃ cmd, e.cmdline = some cmd ∧ matchesWorkerPattern ps cmd = true := by
    intro ps myPID entries pid
    simp only [Manager.CleanupOrphanProcesses, List.mem_filterMap]
    constructor
    · rintro ⟨e, he, hsig⟩
      exact ⟨e, he, (orphanSignalTarget_eq_some ps myPID e pid).1 hsig⟩
    · rintro ⟨e, he, hcond⟩
      exact ⟨e, he, (orphanSignalTarget_eq_some ps myPID e pid).2 hcond⟩
  refine ⟨fun ps myPID => rfl, hmem, ?_⟩
  intro ps myPID procDir hmemself
  cases procDir with
  | none => simp [Manager.CleanupOrphanProcesses] at hmemself
  | some entries =>
    obtain ⟨e, _, _, _, hne, _⟩ := (hmem ps myPID entries myPID).1 hmemself
    exact hne rfl

/-- Witness for claim C9: a concrete orphan worker process is selected
by the cleanup.  Its command line contains the worker script, the
ida-worker marker and the socket flag, and its PID differs from the
gateway PID. -/
theorem claim_C9_witness :
    4242 ∈ Manager.CleanupOrphanProcesses "ida_worker.py" 100
      (some [{ name := "4242", isDir := true,
               cmdline := some "python3 ida_worker.py --socket /tmp/ida-worker-s1.sock --binary /bin/ls --session-id s1" }]) := by
  exact (claim_C9_theorem.2.1 "ida_worker.py" 100
    [{ name := "4242", isDir := true,
       cmdline := some "python3 ida_worker.py --socket /tmp/ida-worker-s1.sock --binary /bin/ls --session-id s1" }]
    4242).2
    ⟨{ name := "4242", isDir := true,
       cmdline := some "python3 ida_worker.py --socket /tmp/ida-worker-s1.sock --binary /bin/ls --session-id s1" },
     by decide, by decide, by decide, by decide,
     "python3 ida_worker.py --socket /tmp/ida-worker-s1.sock --binary /bin/ls --session-id s1",
     by decide, by decide⟩

/-- Claim C6: for every enumeration tool on any filtered list, the
pagination defaults are offset 0 and limit 200; a requested offset
greater than the filtered total yields an empty page whose reported
offset equals the total and whose count is 0; limit 0 is rejected as
invalid_input; and a limit above the cap 2000 is clamped to 2000.  The
function enumeratePage is the pagination tail shared by getFunctions,
getImports, getExports and getStrings, quantified over the tool name. -/
theorem claim_C6_theorem :
    (normalizePagination none none = .ok (0, 200)) ∧
    (∀ {α : Type} (op : String) (filtered : List α) (off l : Nat),
        off > filtered.length →
        enumeratePage op filtered (some off) (some (l + 1)) =
          .ok { items := [], total := filtered.length, offset := filtered.length,
                count := 0, limit := min (l + 1) 2000 }) ∧
    (∀ {α : Type} (op : String) (filtered : List α) (reqOffset : Option Nat),
        enumeratePage op filtered reqOffset (some 0) =
          .error (invalidInput op "limit must be positive")) ∧
    (∀ (reqOffset : Option Nat) (l : Nat), l > 2000 →
        normalizePagination reqOffset (some l) = .ok (reqOffset.getD 0, 2000)) := by
  refine ⟨rfl, ?_, ?_, ?_⟩
  · intro α op filtered off l hoff
    have hlim : ¬(l + 1 = 0) := Nat.succ_ne_zero l
    have hpos : filtered.length < filtered.length + min (l + 1) 2000 := by omega
    unfold enumeratePage normalizePagination
    dsimp only
    rw [if_neg hlim]
    dsimp only [Option.getD]
    rw [if_pos hoff]
    rw [if_pos hpos]
    rw [Nat.sub_self, List.take_zero]
    rfl
  · intro α op filtered reqOffset
    rfl
  · intro reqOffset l hl
    have hne : ¬(l = 0) := by omega
    unfold normalizePagination
    dsimp only
    rw [if_neg hne]
    have hmin : min l 2000 = 2000 := by omega
    rw [hmin]

/-- Witness for claim C6: paging a concrete three-element filtered list
with offset 5 and limit 10 yields the empty page with offset 3 and
count 0. -/
theorem claim_C6_witness :
    enumeratePage "get_functions" [10, 20, 30] (some 5) (some 10) =
      .ok { items := ([] : List Nat), total := 3, offset := 3, count := 0, limit := 10 } := by
  have h := claim_C6_theorem.2.1 "get_functions" [10, 20, 30] 5 9 (by decide)
  simpa using h
